import Mathlib

/-!
Verification of the claude-mem HTTP client (`ClaudeMemClient`) and the
plugin adapter's auto-capture hook, as a shallow embedding.

The embedding is runtime-faithful to the TypeScript source:
* JSON values are modelled by the inductive `Json`.
* `fetch` is modelled by an environment `Env : Request → FetchOutcome`.
  `netError` covers timeouts and connectivity failures thrown by `fetch`
  itself; `completed status body` is an HTTP response, whose `body` is the
  result of `res.json()` (`Except.error` = JSON parse failure thrown there).
  `res.ok` is `200 ≤ status < 300` (`statusOk`).
* Each client method returns its result together with the list of HTTP
  requests it issued, so "issues exactly one fallback request" is the trace.
* JavaScript semantics are modelled explicitly: truthiness checks used when
  building query parameters (`0` and `""` are falsy), nullish coalescing
  `a ?? b` (`nullishCoalesce`, only `null`/`undefined` select `b`),
  property access on `null` throwing a TypeError (`getFieldJS`), and
  `JSON.stringify` dropping fields whose value is `undefined`.
* Exceptions never escape a public method in the source because every
  method body is wrapped in try/catch; correspondingly every embedded
  method is a total function whose failure branches return the caught
  default.
-/

/-- JSON values, as produced by `res.json()`. -/
inductive Json where
  | null : Json
  | bool : Bool → Json
  | num : Int → Json
  | str : String → Json
  | arr : List Json → Json
  | obj : List (String × Json) → Json

/-- An HTTP request as issued through `fetch`: method, full URL (base URL
plus path), query parameters (the `URLSearchParams`), optional JSON body,
and the `AbortSignal.timeout` value in milliseconds. -/
structure Request where
  method : String
  url : String
  query : List (String × String)
  body : Option Json
  timeoutMs : Nat

/-- Outcome of one `fetch` call: either the promise rejects (connection
failure or timeout), or a response arrives with an HTTP status and a
`res.json()` result (which itself may throw a parse error). -/
inductive FetchOutcome where
  | netError (msg : String)
  | completed (status : Nat) (body : Except String Json)

/-- The network, as seen by the client: what each request would produce. -/
abbrev Env := Request → FetchOutcome

/-- `res.ok`: status in the inclusive range 200..299. -/
def statusOk (status : Nat) : Bool := 200 ≤ status && status < 300

/-- The request failed in one of the ways claim C1 enumerates: the fetch
threw (timeout / network error), the status was non-success, or the body
failed to parse as JSON. -/
def FetchOutcome.fails : FetchOutcome → Bool
  | .netError _ => true
  | .completed status body =>
    !(statusOk status) || (match body with | .error _ => true | .ok _ => false)

/-- The request threw before (or instead of) delivering a usable non-success
status: fetch rejection, or a success status whose body fails JSON parsing.
These are exactly the outcomes where the source's `if (!res.ok)` fallback
branch is never reached. -/
def FetchOutcome.throws : FetchOutcome → Bool
  | .netError _ => true
  | .completed status body =>
    statusOk status && (match body with | .error _ => true | .ok _ => false)

/-- JavaScript `a ?? b` where `a` is a present JSON value: only `null`
selects `b`. -/
def nullishCoalesce (a b : Json) : Json :=
  match a with
  | .null => b
  | v => v

/-- JavaScript property access `data.name`: throws a TypeError when `data`
is `null`; yields the field when `data` is an object that has it; yields
`undefined` (modelled `none`) otherwise. -/
def getFieldJS (data : Json) (name : String) : Except String (Option Json) :=
  match data with
  | .null => .error "TypeError: cannot read properties of null"
  | .obj fields => .ok (fields.lookup name)
  | _ => .ok none

/-- The response-shape normalization `data.FIELD ?? data ?? []` shared by the
list-returning operations (`FIELD` is `results` or `observations`). -/
def decodePayload (field : String) (data : Json) : Except String Json :=
  match getFieldJS data field with
  | .error e => .error e
  | .ok none => .ok (nullishCoalesce data (Json.arr []))
  | .ok (some v) => .ok (nullishCoalesce v (nullishCoalesce data (Json.arr [])))

/-- `SearchOptions` from the source (all fields optional). -/
structure SearchOptions where
  limit : Option Int := none
  type : Option String := none
  projectPath : Option String := none
  maxDate : Option String := none

/-- `TimelineOptions` from the source. -/
structure TimelineOptions where
  observationId : Option Int := none
  limit : Option Int := none
  before : Option Bool := none
  after : Option Bool := none

/-- `ContextOptions` from the source. -/
structure ContextOptions where
  projectPath : Option String := none
  limit : Option Int := none

/-- `AddObservationParams` from the source. `type` is `Observation["type"]`,
hence possibly `undefined`. -/
structure AddObservationParams where
  type : Option String
  content : String
  concepts : Option (List String) := none
  files : Option (List String) := none
  sessionId : Option String := none

/-- Query-parameter fragment `...(n && \x7b key: String(n) \x7d)` for a numeric
option: included exactly when the value is present and truthy (nonzero). -/
def numParam (key : String) (n : Option Int) : List (String × String) :=
  match n with
  | some v => if v = 0 then [] else [(key, toString v)]
  | none => []

/-- Query-parameter fragment `...(s && \x7b key: s \x7d)` for a string option:
included exactly when the value is present and truthy (nonempty). -/
def strParam (key : String) (s : Option String) : List (String × String) :=
  match s with
  | some v => if v = "" then [] else [(key, v)]
  | none => []

/-- The `URLSearchParams` built by `search` (insertion order `query`,
`limit`, `type`, `max_date`). -/
def searchParams (query : String) (o : SearchOptions) : List (String × String) :=
  [("query", query)] ++ numParam "limit" o.limit ++ strParam "type" o.type
    ++ strParam "max_date" o.maxDate

/-- The GET request issued by `search`. -/
def searchRequest (baseUrl query : String) (o : SearchOptions) : Request :=
  { method := "GET", url := baseUrl ++ "/api/search", query := searchParams query o
    body := none, timeoutMs := 10000 }

/-- `ClaudeMemClient.search`. Returns the decoded payload (runtime value,
typed `SearchResult[]` in the source) and the trace of issued requests. -/
def search (env : Env) (baseUrl query : String) (o : SearchOptions := {}) :
    Json × List Request :=
  match env (searchRequest baseUrl query o) with
  | .netError _ => (Json.arr [], [searchRequest baseUrl query o])
  | .completed status body =>
    if statusOk status then
      match body with
      | .error _ => (Json.arr [], [searchRequest baseUrl query o])
      | .ok data =>
        match decodePayload "results" data with
        | .error _ => (Json.arr [], [searchRequest baseUrl query o])
        | .ok v => (v, [searchRequest baseUrl query o])
    else (Json.arr [], [searchRequest baseUrl query o])

/-- Result of `getStatus`: `{running, version?, error?}`. -/
structure StatusResult where
  running : Bool
  version : Option Json := none
  error : Option String := none

/-- The GET request issued by `getStatus` (3 s timeout, no params). -/
def healthRequest (baseUrl : String) : Request :=
  { method := "GET", url := baseUrl ++ "/api/health", query := []
    body := none, timeoutMs := 3000 }

/-- `ClaudeMemClient.getStatus`. -/
def getStatus (env : Env) (baseUrl : String) : StatusResult × List Request :=
  match env (healthRequest baseUrl) with
  | .netError msg => ({ running := false, error := some msg }, [healthRequest baseUrl])
  | .completed status body =>
    if statusOk status then
      match body with
      | .error e => ({ running := false, error := some e }, [healthRequest baseUrl])
      | .ok data =>
        match getFieldJS data "version" with
        | .error e => ({ running := false, error := some e }, [healthRequest baseUrl])
        | .ok v => ({ running := true, version := v }, [healthRequest baseUrl])
    else
      ({ running := false, error := some ("HTTP " ++ toString status) },
       [healthRequest baseUrl])

/-- The `URLSearchParams` built by `getTimeline` (`observation_id`, `limit`). -/
def timelineParams (o : TimelineOptions) : List (String × String) :=
  numParam "observation_id" o.observationId ++ numParam "limit" o.limit

/-- The GET request issued by `getTimeline`. -/
def timelineRequest (baseUrl : String) (o : TimelineOptions) : Request :=
  { method := "GET", url := baseUrl ++ "/api/timeline", query := timelineParams o
    body := none, timeoutMs := 10000 }

/-- `ClaudeMemClient.getTimeline`. -/
def getTimeline (env : Env) (baseUrl : String) (o : TimelineOptions := {}) :
    Json × List Request :=
  match env (timelineRequest baseUrl o) with
  | .netError _ => (Json.arr [], [timelineRequest baseUrl o])
  | .completed status body =>
    if statusOk status then
      match body with
      | .error _ => (Json.arr [], [timelineRequest baseUrl o])
      | .ok data =>
        match decodePayload "observations" data with
        | .error _ => (Json.arr [], [timelineRequest baseUrl o])
        | .ok v => (v, [timelineRequest baseUrl o])
    else (Json.arr [], [timelineRequest baseUrl o])

/-- The `URLSearchParams` shared by `getRecentContext`'s primary and fallback
requests (`project_path`, `limit`). -/
def contextParams (o : ContextOptions) : List (String × String) :=
  strParam "project_path" o.projectPath ++ numParam "limit" o.limit

/-- The primary GET request issued by `getRecentContext`. -/
def recentContextRequest (baseUrl : String) (o : ContextOptions) : Request :=
  { method := "GET", url := baseUrl ++ "/api/context/recent", query := contextParams o
    body := none, timeoutMs := 10000 }

/-- The fallback GET request issued by `getRecentContext` when the primary
completes with a non-success status; it reuses the same parameters. -/
def injectRequest (baseUrl : String) (o : ContextOptions) : Request :=
  { method := "GET", url := baseUrl ++ "/api/context/inject", query := contextParams o
    body := none, timeoutMs := 10000 }

/-- `ClaudeMemClient.getRecentContext`, with its single alternate-endpoint
fallback. -/
def getRecentContext (env : Env) (baseUrl : String) (o : ContextOptions := {}) :
    Json × List Request :=
  match env (recentContextRequest baseUrl o) with
  | .netError _ => (Json.arr [], [recentContextRequest baseUrl o])
  | .completed status body =>
    if statusOk status then
      match body with
      | .error _ => (Json.arr [], [recentContextRequest baseUrl o])
      | .ok data =>
        match decodePayload "observations" data with
        | .error _ => (Json.arr [], [recentContextRequest baseUrl o])
        | .ok v => (v, [recentContextRequest baseUrl o])
    else
      match env (injectRequest baseUrl o) with
      | .netError _ =>
        (Json.arr [], [recentContextRequest baseUrl o, injectRequest baseUrl o])
      | .completed status2 body2 =>
        if statusOk status2 then
          match body2 with
          | .error _ =>
            (Json.arr [], [recentContextRequest baseUrl o, injectRequest baseUrl o])
          | .ok data2 =>
            match decodePayload "observations" data2 with
            | .error _ =>
              (Json.arr [], [recentContextRequest baseUrl o, injectRequest baseUrl o])
            | .ok v =>
              (v, [recentContextRequest baseUrl o, injectRequest baseUrl o])
        else
          (Json.arr [], [recentContextRequest baseUrl o, injectRequest baseUrl o])

/-- Result of `addObservation`: `{success, id?}` (the `id` is whatever JSON
value `data.id` held, `none` when absent). -/
structure AddObsResult where
  success : Bool
  id : Option Json := none

/-- The JSON body serialized by `addObservation`: `JSON.stringify` keeps
`type`/`session_id` only when present (it drops `undefined`-valued fields)
and defaults `concepts`/`files` to empty arrays. -/
def addObsBody (p : AddObservationParams) : Json :=
  Json.obj
    ((match p.type with | some t => [("type", Json.str t)] | none => [])
      ++ [("content", Json.str p.content),
          ("concepts", Json.arr ((p.concepts.getD []).map Json.str)),
          ("files", Json.arr ((p.files.getD []).map Json.str))]
      ++ (match p.sessionId with | some s => [("session_id", Json.str s)] | none => []))

/-- The POST request issued by `addObservation`. -/
def addObservationRequest (baseUrl : String) (p : AddObservationParams) : Request :=
  { method := "POST", url := baseUrl ++ "/api/sessions/observations", query := []
    body := some (addObsBody p), timeoutMs := 10000 }

/-- `ClaudeMemClient.addObservation`. -/
def addObservation (env : Env) (baseUrl : String) (p : AddObservationParams) :
    AddObsResult × List Request :=
  match env (addObservationRequest baseUrl p) with
  | .netError _ => ({ success := false }, [addObservationRequest baseUrl p])
  | .completed status body =>
    if statusOk status then
      match body with
      | .error _ => ({ success := false }, [addObservationRequest baseUrl p])
      | .ok data =>
        match getFieldJS data "id" with
        | .error _ => ({ success := false }, [addObservationRequest baseUrl p])
        | .ok v => ({ success := true, id := v }, [addObservationRequest baseUrl p])
    else ({ success := false }, [addObservationRequest baseUrl p])

/-- The GET request issued by `getStats` (5 s timeout, no params). -/
def statsRequest (baseUrl : String) : Request :=
  { method := "GET", url := baseUrl ++ "/api/stats", query := []
    body := none, timeoutMs := 5000 }

/-- `ClaudeMemClient.getStats`: returns the parsed body unchanged on
success, `{}` on any failure. -/
def getStats (env : Env) (baseUrl : String) : Json × List Request :=
  match env (statsRequest baseUrl) with
  | .netError _ => (Json.obj [], [statsRequest baseUrl])
  | .completed status body =>
    if statusOk status then
      match body with
      | .error _ => (Json.obj [], [statsRequest baseUrl])
      | .ok data => (data, [statsRequest baseUrl])
    else (Json.obj [], [statsRequest baseUrl])

/-- The `\x7b limit?: number \x7d` options object of `searchByType`. -/
structure LimitOptions where
  limit : Option Int := none

/-- The `URLSearchParams` built by `searchByType`: `type` is always present
(nullish-defaulted to `"discovery"`), `limit` only when truthy. -/
def searchByTypeParams (ty : Option String) (o : LimitOptions) : List (String × String) :=
  [("type", ty.getD "discovery")] ++ numParam "limit" o.limit

/-- The GET request issued by `searchByType`. -/
def searchByTypeRequest (baseUrl : String) (ty : Option String) (o : LimitOptions) :
    Request :=
  { method := "GET", url := baseUrl ++ "/api/search/by-type"
    query := searchByTypeParams ty o, body := none, timeoutMs := 10000 }

/-- `ClaudeMemClient.searchByType`. -/
def searchByType (env : Env) (baseUrl : String) (ty : Option String)
    (o : LimitOptions := {}) : Json × List Request :=
  match env (searchByTypeRequest baseUrl ty o) with
  | .netError _ => (Json.arr [], [searchByTypeRequest baseUrl ty o])
  | .completed status body =>
    if statusOk status then
      match body with
      | .error _ => (Json.arr [], [searchByTypeRequest baseUrl ty o])
      | .ok data =>
        match decodePayload "observations" data with
        | .error _ => (Json.arr [], [searchByTypeRequest baseUrl ty o])
        | .ok v => (v, [searchByTypeRequest baseUrl ty o])
    else (Json.arr [], [searchByTypeRequest baseUrl ty o])

/-- `ClaudeMemClient.getDecisions`: delegates to `searchByType "decision"`
with the (default 20) limit. -/
def getDecisions (env : Env) (baseUrl : String) (limit : Int := 20) :
    Json × List Request :=
  searchByType env baseUrl (some "decision") { limit := some limit }

/-- The GET request issued by `getHowItWorks` (only the `query` param). -/
def howItWorksRequest (baseUrl query : String) : Request :=
  { method := "GET", url := baseUrl ++ "/api/how-it-works", query := [("query", query)]
    body := none, timeoutMs := 10000 }

/-- `ClaudeMemClient.getHowItWorks`: on a non-success status it falls back
to a generic `search` with limit 10 and returns that call's result. -/
def getHowItWorks (env : Env) (baseUrl query : String) : Json × List Request :=
  match env (howItWorksRequest baseUrl query) with
  | .netError _ => (Json.arr [], [howItWorksRequest baseUrl query])
  | .completed status body =>
    if statusOk status then
      match body with
      | .error _ => (Json.arr [], [howItWorksRequest baseUrl query])
      | .ok data =>
        match decodePayload "results" data with
        | .error _ => (Json.arr [], [howItWorksRequest baseUrl query])
        | .ok v => (v, [howItWorksRequest baseUrl query])
    else
      let fallback := search env baseUrl query { limit := some 10 }
      (fallback.1, howItWorksRequest baseUrl query :: fallback.2)

/-- The plugin configuration consumed by the adapter (all fields optional
in the schema). -/
structure ClaudeMemConfig where
  apiUrl : Option String := none
  enabled : Option Bool := none
  maxResults : Option Int := none
  autoCapture : Option Bool := none

/-- The `afterAgentResponse` event payload used by the capture hook. -/
structure AgentResponseEvent where
  response : Option String := none
  sessionId : Option String := none

/-- The `ClaudeMemClient` constructor's base-URL normalization: default
`http://localhost:37777`, then strip one trailing slash (`replace(/\/$/, "")`). -/
def mkClientBaseUrl (apiUrl : Option String) : String :=
  let u := apiUrl.getD "http://localhost:37777"
  if u.endsWith "/" then u.dropRight 1 else u

/-- The post-response auto-capture hook of the plugin adapter. Returns the
trace of HTTP requests it issues; the hook itself returns nothing and its
try/catch swallows every failure (the embedded function is total). -/
def afterAgentResponse (env : Env) (config : ClaudeMemConfig)
    (event : AgentResponseEvent) : List Request :=
  if config.enabled = some false ∨ config.autoCapture = some false then []
  else
    match event.response with
    | none => []
    | some r =>
      if r = "" ∨ r.length < 100 then []
      else
        (addObservation env (mkClientBaseUrl config.apiUrl)
          { type := some "discovery", content := r.take 1000,
            concepts := some [], files := some [],
            sessionId := event.sessionId }).2

/-- Any enumerated failure of the one request `search` issues yields the
empty-array default. -/
theorem search_fails (env : Env) (b q : String) (o : SearchOptions)
    (h : (env (searchRequest b q o)).fails = true) :
    search env b q o = (Json.arr [], [searchRequest b q o]) := by
  cases he : env (searchRequest b q o) with
  | netError m => simp [search, he]
  | completed s body =>
    rw [he] at h
    simp only [FetchOutcome.fails, Bool.or_eq_true, Bool.not_eq_true'] at h
    cases body with
    | error e => cases hs : statusOk s <;> simp [search, he, hs]
    | ok d =>
      have hs : statusOk s = false := by
        rcases h with h | h
        · exact h
        · simp at h
      simp [search, he, hs]

/-- Any enumerated failure of the one request `getTimeline` issues yields
the empty-array default. -/
theorem getTimeline_fails (env : Env) (b : String) (o : TimelineOptions)
    (h : (env (timelineRequest b o)).fails = true) :
    getTimeline env b o = (Json.arr [], [timelineRequest b o]) := by
  cases he : env (timelineRequest b o) with
  | netError m => simp [getTimeline, he]
  | completed s body =>
    rw [he] at h
    simp only [FetchOutcome.fails, Bool.or_eq_true, Bool.not_eq_true'] at h
    cases body with
    | error e => cases hs : statusOk s <;> simp [getTimeline, he, hs]
    | ok d =>
      have hs : statusOk s = false := by
        rcases h with h | h
        · exact h
        · simp at h
      simp [getTimeline, he, hs]

/-- Any enumerated failure of the one request `searchByType` issues yields
the empty-array default. -/
theorem searchByType_fails (env : Env) (b : String) (ty : Option String)
    (o : LimitOptions) (h : (env (searchByTypeRequest b ty o)).fails = true) :
    searchByType env b ty o = (Json.arr [], [searchByTypeRequest b ty o]) := by
  cases he : env (searchByTypeRequest b ty o) with
  | netError m => simp [searchByType, he]
  | completed s body =>
    rw [he] at h
    simp only [FetchOutcome.fails, Bool.or_eq_true, Bool.not_eq_true'] at h
    cases body with
    | error e => cases hs : statusOk s <;> simp [searchByType, he, hs]
    | ok d =>
      have hs : statusOk s = false := by
        rcases h with h | h
        · exact h
        · simp at h
      simp [searchByType, he, hs]

/-- Any enumerated failure of the one request `getStats` issues yields the
empty-record default. -/
theorem getStats_fails (env : Env) (b : String)
    (h : (env (statsRequest b)).fails = true) :
    getStats env b = (Json.obj [], [statsRequest b]) := by
  cases he : env (statsRequest b) with
  | netError m => simp [getStats, he]
  | completed s body =>
    rw [he] at h
    simp only [FetchOutcome.fails, Bool.or_eq_true, Bool.not_eq_true'] at h
    cases body with
    | error e => cases hs : statusOk s <;> simp [getStats, he, hs]
    | ok d =>
      have hs : statusOk s = false := by
        rcases h with h | h
        · exact h
        · simp at h
      simp [getStats, he, hs]

/-- Any enumerated failure of the one request `addObservation` issues yields
the failure record. -/
theorem addObservation_fails (env : Env) (b : String) (p : AddObservationParams)
    (h : (env (addObservationRequest b p)).fails = true) :
    addObservation env b p
      = ({ success := false, id := none }, [addObservationRequest b p]) := by
  cases he : env (addObservationRequest b p) with
  | netError m => simp [addObservation, he]
  | completed s body =>
    rw [he] at h
    simp only [FetchOutcome.fails, Bool.or_eq_true, Bool.not_eq_true'] at h
    cases body with
    | error e => cases hs : statusOk s <;> simp [addObservation, he, hs]
    | ok d =>
      have hs : statusOk s = false := by
        rcases h with h | h
        · exact h
        · simp at h
      simp [addObservation, he, hs]

/-- Any enumerated failure of the one request `getStatus` issues yields a
not-running record carrying an error message. -/
theorem getStatus_fails (env : Env) (b : String)
    (h : (env (healthRequest b)).fails = true) :
    ∃ e, getStatus env b
      = ({ running := false, version := none, error := some e }, [healthRequest b]) := by
  cases he : env (healthRequest b) with
  | netError m => exact ⟨m, by simp [getStatus, he]⟩
  | completed s body =>
    rw [he] at h
    simp only [FetchOutcome.fails, Bool.or_eq_true, Bool.not_eq_true'] at h
    cases body with
    | error e =>
      cases hs : statusOk s
      · exact ⟨"HTTP " ++ toString s, by simp [getStatus, he, hs]⟩
      · exact ⟨e, by simp [getStatus, he, hs]⟩
    | ok d =>
      have hs : statusOk s = false := by
        rcases h with h | h
        · exact h
        · simp at h
      exact ⟨"HTTP " ++ toString s, by simp [getStatus, he, hs]⟩

/-- When both the primary and the fallback request of `getRecentContext`
fail in any enumerated way, the method returns the empty-array default. -/
theorem getRecentContext_fails (env : Env) (b : String) (o : ContextOptions)
    (h1 : (env (recentContextRequest b o)).fails = true)
    (h2 : (env (injectRequest b o)).fails = true) :
    (getRecentContext env b o).1 = Json.arr [] := by
  cases he : env (recentContextRequest b o) with
  | netError m => simp [getRecentContext, he]
  | completed s body =>
    rw [he] at h1
    simp only [FetchOutcome.fails, Bool.or_eq_true, Bool.not_eq_true'] at h1
    by_cases hs : statusOk s = true
    · cases body with
      | error e => simp [getRecentContext, he, hs]
      | ok d =>
        rcases h1 with h1 | h1
        · rw [h1] at hs; cases hs
        · simp at h1
    · have hs' : statusOk s = false := by simpa using hs
      cases hi : env (injectRequest b o) with
      | netError m2 => simp [getRecentContext, he, hs', hi]
      | completed s2 body2 =>
        rw [hi] at h2
        simp only [FetchOutcome.fails, Bool.or_eq_true, Bool.not_eq_true'] at h2
        cases body2 with
        | error e2 =>
          cases hs2 : statusOk s2 <;> simp [getRecentContext, he, hs', hi, hs2]
        | ok d2 =>
          have hs2 : statusOk s2 = false := by
            rcases h2 with h2 | h2
            · exact h2
            · simp at h2
          simp [getRecentContext, he, hs', hi, hs2]

/-- When both the primary request of `getHowItWorks` and the request of its
`search` fallback fail in any enumerated way, the method returns the
empty-array default. -/
theorem getHowItWorks_fails (env : Env) (b q : String)
    (h1 : (env (howItWorksRequest b q)).fails = true)
    (h2 : (env (searchRequest b q { limit := some 10 })).fails = true) :
    (getHowItWorks env b q).1 = Json.arr [] := by
  cases he : env (howItWorksRequest b q) with
  | netError m => simp [getHowItWorks, he]
  | completed s body =>
    rw [he] at h1
    simp only [FetchOutcome.fails, Bool.or_eq_true, Bool.not_eq_true'] at h1
    by_cases hs : statusOk s = true
    · cases body with
      | error e => simp [getHowItWorks, he, hs]
      | ok d =>
        rcases h1 with h1 | h1
        · rw [h1] at hs; cases hs
        · simp at h1
    · have hs' : statusOk s = false := by simpa using hs
      simp [getHowItWorks, he, hs', search_fails env b q _ h2]

/-- Claim C1: for every public method of `ClaudeMemClient` and every failure
outcome of the underlying HTTP request(s) (timeout, network error,
non-success status, or JSON parse error), the method does not throw (each
embedded method is a total function) and returns the documented safe
default: the empty sequence for the list-returning operations,
`{success := false}` for `addObservation`, `{}` for `getStats`, and
`{running := false, error := ...}` for `getStatus`. -/
theorem claim_C1_failure_safe_defaults (env : Env)
    (hfail : ∀ r, (env r).fails = true)
    (b q : String) (oS : SearchOptions) (oT : TimelineOptions) (oC : ContextOptions)
    (p : AddObservationParams) (ty : Option String) (oL : LimitOptions) (n : Int) :
    (∃ e, (getStatus env b).1
        = { running := false, version := none, error := some e }) ∧
    (search env b q oS).1 = Json.arr [] ∧
    (getTimeline env b oT).1 = Json.arr [] ∧
    (getRecentContext env b oC).1 = Json.arr [] ∧
    (addObservation env b p).1 = { success := false, id := none } ∧
    (getStats env b).1 = Json.obj [] ∧
    (searchByType env b ty oL).1 = Json.arr [] ∧
    (getDecisions env b n).1 = Json.arr [] ∧
    (getHowItWorks env b q).1 = Json.arr [] := by
  refine ⟨?_, ?_, ?_, ?_, ?_, ?_, ?_, ?_, ?_⟩
  · obtain ⟨e, hE⟩ := getStatus_fails env b (hfail _)
    exact ⟨e, by rw [hE]⟩
  · rw [search_fails env b q oS (hfail _)]
  · rw [getTimeline_fails env b oT (hfail _)]
  · exact getRecentContext_fails env b oC (hfail _) (hfail _)
  · rw [addObservation_fails env b p (hfail _)]
  · rw [getStats_fails env b (hfail _)]
  · rw [searchByType_fails env b ty oL (hfail _)]
  · show (searchByType env b (some "decision") { limit := some n }).1 = Json.arr []
    rw [searchByType_fails env b _ _ (hfail _)]
  · exact getHowItWorks_fails env b q (hfail _) (hfail _)

/-- Witness for C1 at a concrete always-refusing network. -/
theorem claim_C1_witness :
    (∃ e, (getStatus (fun _ => .netError "refused") "http://localhost:37777").1
        = { running := false, version := none, error := some e }) ∧
    (search (fun _ => .netError "refused") "http://localhost:37777" "how auth works"
        { limit := some 5 }).1 = Json.arr [] ∧
    (getTimeline (fun _ => .netError "refused") "http://localhost:37777" {}).1
      = Json.arr [] ∧
    (getRecentContext (fun _ => .netError "refused") "http://localhost:37777" {}).1
      = Json.arr [] ∧
    (addObservation (fun _ => .netError "refused") "http://localhost:37777"
        { type := some "bugfix", content := "fixed X" }).1
      = { success := false, id := none } ∧
    (getStats (fun _ => .netError "refused") "http://localhost:37777").1
      = Json.obj [] ∧
    (searchByType (fun _ => .netError "refused") "http://localhost:37777"
        (some "feature") {}).1 = Json.arr [] ∧
    (getDecisions (fun _ => .netError "refused") "http://localhost:37777" 5).1
      = Json.arr [] ∧
    (getHowItWorks (fun _ => .netError "refused") "http://localhost:37777"
        "how auth works").1 = Json.arr [] :=
  claim_C1_failure_safe_defaults (fun _ => .netError "refused") (fun _ => rfl)
    "http://localhost:37777" "how auth works" { limit := some 5 } {} {}
    { type := some "bugfix", content := "fixed X" } (some "feature") {} 5

/-- `search` always issues exactly its one request, whatever the network
does. -/
theorem search_trace (env : Env) (b q : String) (o : SearchOptions) :
    (search env b q o).2 = [searchRequest b q o] := by
  cases he : env (searchRequest b q o) with
  | netError m => simp [search, he]
  | completed s body =>
    cases body with
    | error e => cases hs : statusOk s <;> simp [search, he, hs]
    | ok d =>
      cases hs : statusOk s
      · simp [search, he, hs]
      · cases hd : decodePayload "results" d <;> simp [search, he, hs, hd]

/-- `searchByType` always issues exactly its one request. -/
theorem searchByType_trace (env : Env) (b : String) (ty : Option String)
    (o : LimitOptions) :
    (searchByType env b ty o).2 = [searchByTypeRequest b ty o] := by
  cases he : env (searchByTypeRequest b ty o) with
  | netError m => simp [searchByType, he]
  | completed s body =>
    cases body with
    | error e => cases hs : statusOk s <;> simp [searchByType, he, hs]
    | ok d =>
      cases hs : statusOk s
      · simp [searchByType, he, hs]
      · cases hd : decodePayload "observations" d <;> simp [searchByType, he, hs, hd]

/-- `addObservation` always issues exactly its one POST request. -/
theorem addObservation_trace (env : Env) (b : String) (p : AddObservationParams) :
    (addObservation env b p).2 = [addObservationRequest b p] := by
  cases he : env (addObservationRequest b p) with
  | netError m => simp [addObservation, he]
  | completed s body =>
    cases body with
    | error e => cases hs : statusOk s <;> simp [addObservation, he, hs]
    | ok d =>
      cases hs : statusOk s
      · simp [addObservation, he, hs]
      · cases hd : getFieldJS d "id" <;> simp [addObservation, he, hs, hd]

/-- Claim C2: when `getRecentContext`'s primary request completes with a
non-success status, exactly one fallback request to `/api/context/inject`
with the same query parameters is issued before returning, and if that
fallback also fails (non-success status or error) the method returns the
empty sequence. -/
theorem claim_C2_recentContext_fallback (env : Env) (b : String) (o : ContextOptions)
    (s : Nat) (body : Except String Json)
    (h : env (recentContextRequest b o) = .completed s body)
    (hs : statusOk s = false) :
    (injectRequest b o).query = (recentContextRequest b o).query ∧
    (getRecentContext env b o).2 = [recentContextRequest b o, injectRequest b o] ∧
    ((env (injectRequest b o)).fails = true →
      (getRecentContext env b o).1 = Json.arr []) := by
  refine ⟨rfl, ?_, ?_⟩
  · cases hi : env (injectRequest b o) with
    | netError m => simp [getRecentContext, h, hs, hi]
    | completed s2 b2 =>
      cases b2 with
      | error e2 => cases hs2 : statusOk s2 <;> simp [getRecentContext, h, hs, hi, hs2]
      | ok d2 =>
        cases hs2 : statusOk s2
        · simp [getRecentContext, h, hs, hi, hs2]
        · cases hd : decodePayload "observations" d2 <;>
            simp [getRecentContext, h, hs, hi, hs2, hd]
  · intro h2
    have h1 : (env (recentContextRequest b o)).fails = true := by
      rw [h]
      simp [FetchOutcome.fails, hs]
    exact getRecentContext_fails env b o h1 h2

/-- Witness for C2: a network answering 500 with a null body everywhere. -/
theorem claim_C2_witness :
    (getRecentContext (fun _ => .completed 500 (.ok Json.null))
        "http://localhost:37777" {}).2
      = [recentContextRequest "http://localhost:37777" {},
         injectRequest "http://localhost:37777" {}] ∧
    (getRecentContext (fun _ => .completed 500 (.ok Json.null))
        "http://localhost:37777" {}).1 = Json.arr [] :=
  ⟨(claim_C2_recentContext_fallback (fun _ => .completed 500 (.ok Json.null))
      "http://localhost:37777" {} 500 (.ok Json.null) rfl (by decide)).2.1,
   (claim_C2_recentContext_fallback (fun _ => .completed 500 (.ok Json.null))
      "http://localhost:37777" {} 500 (.ok Json.null) rfl (by decide)).2.2 (by decide)⟩

/-- Claim C10: when the primary request of a two-tier operation throws
(connectivity failure, timeout, or JSON parse error) rather than completing
with a non-success status, no fallback request is issued at all and the
method returns the empty sequence directly. -/
theorem claim_C10_throw_skips_fallback (env : Env) (b q : String) (o : ContextOptions)
    (h1 : (env (recentContextRequest b o)).throws = true)
    (h2 : (env (howItWorksRequest b q)).throws = true) :
    getRecentContext env b o = (Json.arr [], [recentContextRequest b o]) ∧
    getHowItWorks env b q = (Json.arr [], [howItWorksRequest b q]) := by
  constructor
  · cases he : env (recentContextRequest b o) with
    | netError m => simp [getRecentContext, he]
    | completed s body =>
      rw [he] at h1
      simp only [FetchOutcome.throws, Bool.and_eq_true] at h1
      obtain ⟨hs, hb⟩ := h1
      cases body with
      | error e => simp [getRecentContext, he, hs]
      | ok d => simp at hb
  · cases he : env (howItWorksRequest b q) with
    | netError m => simp [getHowItWorks, he]
    | completed s body =>
      rw [he] at h2
      simp only [FetchOutcome.throws, Bool.and_eq_true] at h2
      obtain ⟨hs, hb⟩ := h2
      cases body with
      | error e => simp [getHowItWorks, he, hs]
      | ok d => simp at hb

/-- Witness for C10: a network that always times out. -/
theorem claim_C10_witness :
    getRecentContext (fun _ => .netError "timed out") "http://localhost:37777" {}
      = (Json.arr [], [recentContextRequest "http://localhost:37777" {}]) ∧
    getHowItWorks (fun _ => .netError "timed out") "http://localhost:37777" "q"
      = (Json.arr [], [howItWorksRequest "http://localhost:37777" "q"]) :=
  claim_C10_throw_skips_fallback (fun _ => .netError "timed out")
    "http://localhost:37777" "q" {} rfl rfl

/-- Claim C5: when `getHowItWorks`'s request completes with a non-success
status, the method issues a generic `search` with the same query and limit
10 and returns that call's result. -/
theorem claim_C5_howItWorks_search_fallback (env : Env) (b q : String)
    (s : Nat) (body : Except String Json)
    (h : env (howItWorksRequest b q) = .completed s body)
    (hs : statusOk s = false) :
    (getHowItWorks env b q).1 = (search env b q { limit := some 10 }).1 ∧
    (getHowItWorks env b q).2
      = [howItWorksRequest b q, searchRequest b q { limit := some 10 }] := by
  constructor
  · simp [getHowItWorks, h, hs]
  · simp [getHowItWorks, h, hs, search_trace env b q { limit := some 10 }]

/-- Witness for C5: a network answering 404 with a null body everywhere. -/
theorem claim_C5_witness :
    (getHowItWorks (fun _ => .completed 404 (.ok Json.null))
        "http://localhost:37777" "how auth works").1
      = (search (fun _ => .completed 404 (.ok Json.null))
          "http://localhost:37777" "how auth works" { limit := some 10 }).1 ∧
    (getHowItWorks (fun _ => .completed 404 (.ok Json.null))
        "http://localhost:37777" "how auth works").2
      = [howItWorksRequest "http://localhost:37777" "how auth works",
         searchRequest "http://localhost:37777" "how auth works"
           { limit := some 10 }] :=
  claim_C5_howItWorks_search_fallback (fun _ => .completed 404 (.ok Json.null))
    "http://localhost:37777" "how auth works" 404 (.ok Json.null) rfl (by decide)

/-- Decoding a bare-array body yields the array itself. -/
theorem decodePayload_bare_arr (field : String) (xs : List Json) :
    decodePayload field (Json.arr xs) = .ok (Json.arr xs) := rfl

/-- Decoding a wrapper object `\x7b FIELD: xs \x7d` yields the wrapped array. -/
theorem decodePayload_wrapper (field : String) (xs : List Json) :
    decodePayload field (Json.obj [(field, Json.arr xs)]) = .ok (Json.arr xs) := by
  simp [decodePayload, getFieldJS, List.lookup, nullishCoalesce]

/-- Claim C3: for every payload list `xs` and every list-returning operation,
a success response whose body is the bare array `xs` and one whose body is
the wrapper object (`results` for `search`/`getHowItWorks`, `observations`
for the observation-returning operations) containing `xs` decode to the
identical sequence `xs`. -/
theorem claim_C3_response_shape_tolerance (env : Env) (b q : String)
    (oS : SearchOptions) (oT : TimelineOptions) (oC : ContextOptions)
    (ty : Option String) (oL : LimitOptions) (s : Nat) (xs : List Json)
    (hs : statusOk s = true) :
    ((env (searchRequest b q oS) = .completed s (.ok (Json.arr xs)) ∨
      env (searchRequest b q oS)
        = .completed s (.ok (Json.obj [("results", Json.arr xs)]))) →
      (search env b q oS).1 = Json.arr xs) ∧
    ((env (timelineRequest b oT) = .completed s (.ok (Json.arr xs)) ∨
      env (timelineRequest b oT)
        = .completed s (.ok (Json.obj [("observations", Json.arr xs)]))) →
      (getTimeline env b oT).1 = Json.arr xs) ∧
    ((env (recentContextRequest b oC) = .completed s (.ok (Json.arr xs)) ∨
      env (recentContextRequest b oC)
        = .completed s (.ok (Json.obj [("observations", Json.arr xs)]))) →
      (getRecentContext env b oC).1 = Json.arr xs) ∧
    ((env (searchByTypeRequest b ty oL) = .completed s (.ok (Json.arr xs)) ∨
      env (searchByTypeRequest b ty oL)
        = .completed s (.ok (Json.obj [("observations", Json.arr xs)]))) →
      (searchByType env b ty oL).1 = Json.arr xs) ∧
    ((env (howItWorksRequest b q) = .completed s (.ok (Json.arr xs)) ∨
      env (howItWorksRequest b q)
        = .completed s (.ok (Json.obj [("results", Json.arr xs)]))) →
      (getHowItWorks env b q).1 = Json.arr xs) := by
  refine ⟨fun h => ?_, fun h => ?_, fun h => ?_, fun h => ?_, fun h => ?_⟩ <;>
    rcases h with h | h <;>
      simp [search, getTimeline, getRecentContext, searchByType, getHowItWorks,
        h, hs, decodePayload_bare_arr, decodePayload_wrapper]

/-- Witness for C3: `search` decodes the bare shape and the wrapper shape to
the same one-element sequence. -/
theorem claim_C3_witness :
    (search (fun _ => .completed 200 (.ok (Json.arr [Json.num 7])))
        "http://localhost:37777" "q" {}).1 = Json.arr [Json.num 7] ∧
    (search (fun _ => .completed 200
          (.ok (Json.obj [("results", Json.arr [Json.num 7])])))
        "http://localhost:37777" "q" {}).1 = Json.arr [Json.num 7] :=
  ⟨(claim_C3_response_shape_tolerance
      (fun _ => .completed 200 (.ok (Json.arr [Json.num 7])))
      "http://localhost:37777" "q" {} {} {} none {} 200 [Json.num 7]
      (by decide)).1 (Or.inl rfl),
   (claim_C3_response_shape_tolerance
      (fun _ => .completed 200 (.ok (Json.obj [("results", Json.arr [Json.num 7])])))
      "http://localhost:37777" "q" {} {} {} none {} 200 [Json.num 7]
      (by decide)).1 (Or.inr rfl)⟩

/-- Counterexample to claim C4 as stated: a success response whose parsed
body is the object `\x7b foo: 1 \x7d` — neither a wrapper with the expected
field nor a sequence — makes `search` return that object itself (via
`data.results ?? data ?? []`, where the non-null `data` wins), not the
empty sequence. -/
theorem claim_C4_counterexample :
    (search (fun _ => .completed 200 (.ok (Json.obj [("foo", Json.num 1)])))
        "http://localhost:37777" "q" {}).1
      = Json.obj [("foo", Json.num 1)] ∧
    Json.obj [("foo", Json.num 1)] ≠ Json.arr [] :=
  ⟨rfl, fun h => nomatch h⟩

/-- Claim C4 amended: on a success response whose parsed JSON body is a
non-null object lacking the expected named field, every list-returning
operation returns that parsed object itself (the `?? []` default never
fires for it), not the empty sequence. -/
theorem claim_C4_amended_returns_body (env : Env) (b q : String)
    (oS : SearchOptions) (oT : TimelineOptions) (oC : ContextOptions)
    (ty : Option String) (oL : LimitOptions) (s : Nat)
    (fs : List (String × Json)) (hs : statusOk s = true)
    (hres : fs.lookup "results" = none) (hobs : fs.lookup "observations" = none) :
    (env (searchRequest b q oS) = .completed s (.ok (Json.obj fs)) →
      (search env b q oS).1 = Json.obj fs) ∧
    (env (timelineRequest b oT) = .completed s (.ok (Json.obj fs)) →
      (getTimeline env b oT).1 = Json.obj fs) ∧
    (env (recentContextRequest b oC) = .completed s (.ok (Json.obj fs)) →
      (getRecentContext env b oC).1 = Json.obj fs) ∧
    (env (searchByTypeRequest b ty oL) = .completed s (.ok (Json.obj fs)) →
      (searchByType env b ty oL).1 = Json.obj fs) ∧
    (env (howItWorksRequest b q) = .completed s (.ok (Json.obj fs)) →
      (getHowItWorks env b q).1 = Json.obj fs) := by
  have hd : ∀ f, fs.lookup f = none →
      decodePayload f (Json.obj fs) = .ok (Json.obj fs) := by
    intro f hf
    simp [decodePayload, getFieldJS, hf, nullishCoalesce]
  refine ⟨fun h => ?_, fun h => ?_, fun h => ?_, fun h => ?_, fun h => ?_⟩ <;>
    simp [search, getTimeline, getRecentContext, searchByType, getHowItWorks,
      h, hs, hd _ hres, hd _ hobs]

/-- Witness for the amended C4, on the counterexample's input. -/
theorem claim_C4_amended_witness :
    (search (fun _ => .completed 200 (.ok (Json.obj [("foo", Json.num 1)])))
        "http://localhost:37777" "q" {}).1
      = Json.obj [("foo", Json.num 1)] :=
  (claim_C4_amended_returns_body
    (fun _ => .completed 200 (.ok (Json.obj [("foo", Json.num 1)])))
    "http://localhost:37777" "q" {} {} {} none {} 200 [("foo", Json.num 1)]
    (by decide) rfl rfl).1 rfl

/-- Claim C6: the post-response auto-capture hook issues exactly one
add-observation call — of type `discovery`, with the response truncated to
at most 1000 characters, empty concepts and files, and the event's session
id — precisely when both config gates are on and the response is present
with at least 100 characters; otherwise it issues nothing. The hook is a
total function, so no failure of the underlying call ever propagates. -/
theorem claim_C6_autoCapture_hook (env : Env) (cfg : ClaudeMemConfig)
    (event : AgentResponseEvent) (r : String) :
    (cfg.enabled ≠ some false → cfg.autoCapture ≠ some false →
      event.response = some r → 100 ≤ r.length →
      afterAgentResponse env cfg event
        = [addObservationRequest (mkClientBaseUrl cfg.apiUrl)
            { type := some "discovery", content := r.take 1000,
              concepts := some [], files := some [],
              sessionId := event.sessionId }]) ∧
    (event.response = none → afterAgentResponse env cfg event = []) ∧
    (event.response = some r → r.length < 100 →
      afterAgentResponse env cfg event = []) ∧
    (cfg.enabled = some false → afterAgentResponse env cfg event = []) ∧
    (cfg.autoCapture = some false → afterAgentResponse env cfg event = []) := by
  refine ⟨fun h1 h2 hresp h100 => ?_, fun hresp => ?_, fun hresp hlen => ?_,
    fun h => ?_, fun h => ?_⟩
  · have hlt : ¬ r.length < 100 := not_lt.mpr h100
    have hne : ¬ r = "" := by
      intro h0
      rw [h0] at h100
      simp at h100
    simp [afterAgentResponse, h1, h2, hresp, hlt, hne, addObservation_trace]
  · unfold afterAgentResponse
    split
    · rfl
    · rw [hresp]
  · unfold afterAgentResponse
    split
    · rfl
    · rw [hresp]
      simp [hlen]
  · simp [afterAgentResponse, h]
  · simp [afterAgentResponse, h]

/-- Witness for C6: a 100-character response is captured; a disabled config
captures nothing. -/
theorem claim_C6_witness :
    afterAgentResponse (fun _ => .netError "refused") {}
        { response := some (String.mk (List.replicate 100 'a')),
          sessionId := some "sess-1" }
      = [addObservationRequest (mkClientBaseUrl none)
          { type := some "discovery",
            content := (String.mk (List.replicate 100 'a')).take 1000,
            concepts := some [], files := some [],
            sessionId := some "sess-1" }] ∧
    afterAgentResponse (fun _ => .netError "refused") { enabled := some false }
        { response := some (String.mk (List.replicate 100 'a')),
          sessionId := some "sess-1" } = [] :=
  ⟨(claim_C6_autoCapture_hook (fun _ => .netError "refused") {}
      { response := some (String.mk (List.replicate 100 'a')),
        sessionId := some "sess-1" }
      (String.mk (List.replicate 100 'a'))).1
      (by decide) (by decide) rfl (by decide),
   (claim_C6_autoCapture_hook (fun _ => .netError "refused") { enabled := some false }
      { response := some (String.mk (List.replicate 100 'a')),
        sessionId := some "sess-1" }
      (String.mk (List.replicate 100 'a'))).2.2.2.1 rfl⟩

/-- Claim C7: with `concepts` and `files` omitted, the serialized POST body
of `addObservation` carries them as empty arrays; and a success response
whose body has `id: 42` yields `{success := true, id := 42}`. -/
theorem claim_C7_addObservation_defaults (env : Env) (b : String)
    (ty : Option String) (c : String) (sid : Option String)
    (p : AddObservationParams) (s : Nat) (fs : List (String × Json))
    (hs : statusOk s = true) :
    (∃ fields, addObsBody { type := ty, content := c, sessionId := sid }
        = Json.obj fields ∧
      ("concepts", Json.arr []) ∈ fields ∧ ("files", Json.arr []) ∈ fields) ∧
    (env (addObservationRequest b p) = .completed s (.ok (Json.obj fs)) →
      fs.lookup "id" = some (Json.num 42) →
      (addObservation env b p).1 = { success := true, id := some (Json.num 42) }) := by
  constructor
  · refine ⟨_, rfl, ?_, ?_⟩ <;> cases ty <;> cases sid <;> simp [addObsBody]
  · intro h hid
    simp [addObservation, h, hs, getFieldJS, hid]

/-- Witness for C7: `\x7b type: "bugfix", content: "fixed X" \x7d` against a
service answering `\x7b id: 42 \x7d`. -/
theorem claim_C7_witness :
    (∃ fields, addObsBody
        { type := some "bugfix", content := "fixed X", sessionId := none }
        = Json.obj fields ∧
      ("concepts", Json.arr []) ∈ fields ∧ ("files", Json.arr []) ∈ fields) ∧
    (addObservation (fun _ => .completed 201 (.ok (Json.obj [("id", Json.num 42)])))
        "http://localhost:37777"
        { type := some "bugfix", content := "fixed X" }).1
      = { success := true, id := some (Json.num 42) } :=
  ⟨(claim_C7_addObservation_defaults
      (fun _ => .completed 201 (.ok (Json.obj [("id", Json.num 42)])))
      "http://localhost:37777" (some "bugfix") "fixed X" none
      { type := some "bugfix", content := "fixed X" }
      201 [("id", Json.num 42)] (by decide)).1,
   (claim_C7_addObservation_defaults
      (fun _ => .completed 201 (.ok (Json.obj [("id", Json.num 42)])))
      "http://localhost:37777" (some "bugfix") "fixed X" none
      { type := some "bugfix", content := "fixed X" }
      201 [("id", Json.num 42)] (by decide)).2 rfl rfl⟩

/-- A pair with key `k` appears in a truthiness-gated numeric parameter
fragment iff the key matches and the option is present and nonzero. -/
theorem mem_numParam (k v key : String) (n : Option Int) :
    (k, v) ∈ numParam key n ↔ k = key ∧ ∃ m, n = some m ∧ m ≠ 0 ∧ v = toString m := by
  cases n with
  | none => simp [numParam]
  | some m =>
    by_cases hm : m = 0 <;> simp [numParam, hm]

/-- A pair with key `k` appears in a truthiness-gated string parameter
fragment iff the key matches and the option is present and nonempty. -/
theorem mem_strParam (k v key : String) (s : Option String) :
    (k, v) ∈ strParam key s ↔ k = key ∧ s = some v ∧ v ≠ "" := by
  cases s with
  | none => simp [strParam]
  | some x =>
    by_cases hx : x = "" <;> (simp [strParam, hx]; aesop)

/-- Claim C8: `search` issues exactly one request; its query string always
contains the `query` parameter, and contains `limit`, `type`, `max_date`
iff the corresponding option is present and truthy — so a limit of 0 or an
empty-string type is omitted. -/
theorem claim_C8_search_query_params (env : Env) (b q : String) (o : SearchOptions) :
    (search env b q o).2 = [searchRequest b q o] ∧
    ("query", q) ∈ (searchRequest b q o).query ∧
    ((∃ v, ("limit", v) ∈ (searchRequest b q o).query) ↔
      ∃ n, o.limit = some n ∧ n ≠ 0) ∧
    ((∃ v, ("type", v) ∈ (searchRequest b q o).query) ↔
      ∃ t, o.type = some t ∧ t ≠ "") ∧
    ((∃ v, ("max_date", v) ∈ (searchRequest b q o).query) ↔
      ∃ d, o.maxDate = some d ∧ d ≠ "") := by
  refine ⟨search_trace env b q o, ?_, ?_, ?_, ?_⟩
  · simp [searchRequest, searchParams, mem_numParam, mem_strParam]
  · simp [searchRequest, searchParams, mem_numParam, mem_strParam]
    aesop
  · simp [searchRequest, searchParams, mem_numParam, mem_strParam]
  · simp [searchRequest, searchParams, mem_numParam, mem_strParam]

/-- Claim C9: `getDecisions` is exactly `searchByType "decision"` at the
same limit (request and result alike), the omitted limit defaults to 20,
and `getDecisions 5` issues one search-by-type request whose parameters are
`type=decision`, `limit=5`. -/
theorem claim_C9_getDecisions_delegates (env : Env) (b : String) (n : Int) :
    getDecisions env b n = searchByType env b (some "decision") { limit := some n } ∧
    getDecisions env b = searchByType env b (some "decision") { limit := some 20 } ∧
    (getDecisions env b 5).2
      = [searchByTypeRequest b (some "decision") { limit := some 5 }] ∧
    (searchByTypeRequest b (some "decision") { limit := some 5 }).query
      = [("type", "decision"), ("limit", "5")] :=
  ⟨rfl, rfl, searchByType_trace env b (some "decision") { limit := some 5 }, rfl⟩
